import Mathlib

/-!
# Shallow embedding of the SecureApi connection manager (`src/secureApi.js`)

The connection manager owns a queue of candidate authentication tokens and
drives a connect / authenticate / readiness-wait cycle against a local node.
External collaborators (the WebSocket transport, the HEAD-ping liveness probe,
the signer RPC, the `parity_netChain` RPC, `Math.random`, timer scheduling)
are modelled by an oracle structure `Env` indexed by a call counter (`tick`)
threaded through the state.  Promise-based control flow is modelled by
explicit state passing; a promise outcome is `Res.ok` (resolved),
`Res.err` (rejected) or `Res.spin` (still pending after the given fuel:
the JS retry loops can genuinely run forever, so recursion is fuel-indexed).
-/

namespace SecureApi

/-- A candidate authentication token: the `{ value, tried }` entries of
`this._tokens`. -/
structure CandidateToken where
  value : String
  tried : Bool
deriving DecidableEq, Repr

/-- Events emitted by the manager via `this.emit(...)`. -/
inductive Event where
  | connecting
  | connected
  | disconnected
deriving DecidableEq, Repr

/-- Result of one `this.parity.netChain()` RPC call, as discriminated by the
`catch` handler of `_waitUntilNodeReady`: success, rejection with a falsy
error (`if (!error) return true`), rejection with
`error.type === 'NETWORK_DISABLED'`, or rejection with any other error
(re-thrown). -/
inductive NetChainResult where
  | ok
  | errNull
  | errDisabled
  | errOther (msg : String)
deriving DecidableEq, Repr

/-- Outcome of a promise in the model: resolved with a value, rejected with
an error, or still pending after the available fuel ran out (`spin`). -/
inductive Res (α : Type) where
  | ok (a : α)
  | err (e : String)
  | spin
deriving DecidableEq, Repr

/-- The external world.  Each oracle is indexed by the global call counter
(`St.tick`), which is incremented once per external asynchronous call, so an
arbitrary `Env` represents an arbitrary sequence of collaborator responses.
`rand n` models `Math.floor(500 * Math.random())` (so it is `< 500` for real
executions), `lag n` models extra scheduler delay beyond a `setTimeout`
timeout, and `retryTimeout` is `this.transport.retryTimeout`. -/
structure Env where
  connectOk : Nat → String → Bool
  nodeUp : Nat → Bool
  genToken : Nat → Except String String
  netChain : Nat → NetChainResult
  rand : Nat → Nat
  lag : Nat → Nat
  retryTimeout : Nat

/-- The manager's state.  `sysuiToken` is the value of the persistent store
under the `'sysuiToken'` key; `providerToken` is the transport's current
token (`this.provider.token`, read by the `secureToken` getter);
`events` logs the emitted events in order; `pushedTokens` logs every argument
of `this.provider.updateToken(...)` in order; `waits` logs every
`window.setTimeout` delay in order; `tick` is the external-call counter. -/
structure St where
  isConnecting : Bool
  needsToken : Bool
  tokens : List CandidateToken
  providerToken : String
  sysuiToken : Option String
  events : List Event
  pushedTokens : List String
  waits : List Nat
  tick : Nat
deriving DecidableEq, Repr

/-- `_sanitiseToken`: `token.replace(/[^a-zA-Z0-9]/g, '')`. -/
def sanitiseToken (token : String) : String :=
  String.mk (token.data.filter (fun c => c.isAlphanum))

/-- `_getNextToken`: the first candidate whose `tried` flag is unset. -/
def getNextToken (tokens : List CandidateToken) : Option CandidateToken :=
  tokens.find? (fun t => !t.tried)

/-- The in-place `nextToken.tried = true` assignment of `_connect`: mark the
first untried candidate as tried. -/
def markFirstUntried : List CandidateToken → List CandidateToken
  | [] => []
  | t :: ts =>
    if t.tried then t :: markFirstUntried ts
    else { t with tried := true } :: ts

/-- `_resetTokens`: clear every candidate's `tried` flag. -/
def resetTokens (tokens : List CandidateToken) : List CandidateToken :=
  tokens.map (fun t => { t with tried := false })

/-- lodash `uniq`: keep the first occurrence of each value (later duplicates
of the head are filtered out of the deduplicated tail). -/
def uniqStr : List String → List String
  | [] => []
  | x :: xs => x :: (uniqStr xs).filter (fun y => y ≠ x)

/-- The constructor's seeding of `_tokens`:
`uniq([sysuiToken, nextToken, 'initial']).filter(t => t).map(...)`.
A `null`/absent value is encoded as `""` (both are falsy, both are removed
by the filter). -/
def initialTokens (sysuiToken nextToken : Option String) : List CandidateToken :=
  ((uniqStr [sysuiToken.getD "", nextToken.getD "", "initial"]).filter
      (fun t => t ≠ "")).map (fun value => { value := value, tried := false })

/-- The manager's state right after the constructor seeded `_tokens` and
before the initial `connect()` call.  `sysuiToken` is what
`store.get('sysuiToken')` returned; the provider was constructed with that
token. -/
def initialState (sysuiToken nextToken : Option String) : St :=
  { isConnecting := false
    needsToken := false
    tokens := initialTokens sysuiToken nextToken
    providerToken := sysuiToken.getD ""
    sysuiToken := sysuiToken
    events := []
    pushedTokens := []
    waits := []
    tick := 0 }

/-- A trailing `.catch` that turns any rejection into a resolved `false`
(the `.catch(() => false)` handlers of `_connect` / `connectPromise`). -/
def catchFalse : Res Bool × St → Res Bool × St
  | (.err _, s) => (.ok false, s)
  | r => r

/-- `_waitUntilNodeReady(timeleft)`: poll `parity.netChain()` until it
succeeds or the time ceiling elapses.  The entry call passes `30000`
(the `Number.isFinite` default of 30 seconds); `timeleft = 0` models the
JS `timeleft <= 0` check (natural subtraction clamps at zero exactly when
the JS value would be `<= 0`).  Each retry waits
`timeout = 250 + rand` ms (`Math.floor(250 + 500 * Math.random())`) and the
elapsed `duration` is that timeout plus scheduler lag. -/
def waitUntilNodeReady (env : Env) (fuel : Nat) (timeleft : Nat) (s : St) :
    Res Bool × St :=
  if timeleft = 0 then (.ok true, s)
  else
    let s1 : St := { s with tick := s.tick + 1 }
    match env.netChain s.tick with
    | .ok => (.ok true, s1)
    | .errNull => (.ok true, s1)
    | .errOther msg => (.err msg, s1)
    | .errDisabled =>
      match fuel with
      | 0 => (.spin, s1)
      | fuel' + 1 =>
        let timeout := 250 + env.rand s.tick
        let duration := timeout + env.lag s.tick
        waitUntilNodeReady env fuel' (timeleft - duration)
          { s1 with waits := s1.waits ++ [timeout] }

/-- The continuation of `Promise.all([connectPromise, this.isNodeUp()])` in
`_connectWithToken`: consume the liveness-probe answer; if the connect
promise resolved `true` the token is valid; otherwise, if the node is not
up, wait `this.transport.retryTimeout` ms and retry the same (sanitised)
token; otherwise the token is invalid. -/
def afterConnectPromise (env : Env) (retry : String → St → Res Bool × St)
    (token : String) : Res Bool × St → Res Bool × St
  | (.ok connected, s5) =>
    let up := env.nodeUp s5.tick
    let s6 : St := { s5 with tick := s5.tick + 1 }
    if connected then (.ok true, s6)
    else if up = false then
      retry token { s6 with waits := s6.waits ++ [env.retryTimeout] }
    else (.ok false, s6)
  | r => r

/-- `_connectWithToken(_token)`: sanitise the token, push it into the
transport (`provider.updateToken(token, false)`, logged in `pushedTokens`),
run `provider.connect()`; on success with the `'initial'` sentinel invoke
`_generateAuthorizationToken` (signer RPC, then recurse with the fresh
token), on success otherwise resolve `true`; all rejections inside
`connectPromise` are caught to `false`; finally run the `Promise.all`
continuation `afterConnectPromise`. -/
def connectWithToken (env : Env) : Nat → String → St → Res Bool × St
  | 0, _, s => (.spin, s)
  | fuel + 1, tok, s0 =>
    let token := sanitiseToken tok
    let s1 : St := { s0 with providerToken := token,
                             pushedTokens := s0.pushedTokens ++ [token] }
    let cp : Res Bool × St :=
      catchFalse
        (if env.connectOk s1.tick token then
          let s2 : St := { s1 with tick := s1.tick + 1 }
          if token = "initial" then
            let gen := env.genToken s2.tick
            let s3 : St := { s2 with tick := s2.tick + 1 }
            match gen with
            | .error e => (.err e, s3)
            | .ok g => connectWithToken env fuel g s3
          else (.ok true, s2)
        else (.ok false, { s1 with tick := s1.tick + 1 }))
    afterConnectPromise env (fun t u => connectWithToken env fuel t u) token cp

/-- `_connect()`: take the first untried candidate (resolve `false` if none
remain), mark it tried, attempt `_connectWithToken`; on an invalid token
recurse to the next candidate; on a valid token run `_waitUntilNodeReady()`
(default ceiling 30000 ms) and resolve `true`; any rejection is caught to
`false` by the trailing `.catch`. -/
def _connect (env : Env) (fuel : Nat) (s : St) : Res Bool × St :=
  catchFalse
    (match getNextToken s.tokens with
     | none => (.ok false, s)
     | some nextToken =>
       match fuel with
       | 0 => (.spin, s)
       | fuel' + 1 =>
         let s1 : St := { s with tokens := markFirstUntried s.tokens }
         match connectWithToken env fuel' nextToken.value s1 with
         | (.ok true, s2) =>
           (match waitUntilNodeReady env fuel' 30000 s2 with
            | (.ok _, s3) => (.ok true, s3)
            | r => r)
         | (.ok false, s2) => _connect env fuel' s2
         | r => r)

/-- `connect()`: a no-op if a cycle is already running; otherwise set
`isConnecting`, emit `connecting`, reset the candidates' `tried` flags, run
`_connect`; on completion clear `isConnecting` and either persist the
provider's token (`store.set('sysuiToken', this.secureToken)`), clear
`needsToken` and emit `connected`, or set `needsToken` and emit
`disconnected`; any rejection is caught, clearing `isConnecting` and
emitting `disconnected`. -/
def connect (env : Env) (fuel : Nat) (s : St) : Res Unit × St :=
  if s.isConnecting then (.ok (), s)
  else
    let s2 : St := { s with isConnecting := true,
                            events := s.events ++ [Event.connecting],
                            tokens := resetTokens s.tokens }
    match _connect env fuel s2 with
    | (.ok connected, s3) =>
      let s4 : St := { s3 with isConnecting := false }
      if connected then
        (.ok (), { s4 with sysuiToken := some s4.providerToken,
                           needsToken := false,
                           events := s4.events ++ [Event.connected] })
      else
        (.ok (), { s4 with needsToken := true,
                           events := s4.events ++ [Event.disconnected] })
    | (.err _, s3) =>
      (.ok (), { s3 with isConnecting := false,
                         events := s3.events ++ [Event.disconnected] })
    | (.spin, s3) => (.spin, s3)

/-- `updateToken(_token)`: sanitise the input, prepend it as a new untried
candidate, and invoke `connect()`. -/
def updateToken (env : Env) (fuel : Nat) (tok : String) (s : St) :
    Res Unit × St :=
  let token := sanitiseToken tok
  let s1 : St := { s with tokens := { value := token, tried := false } :: s.tokens }
  connect env fuel s1

/-! ## Helper lemmas -/

/-- The state fields that the attempt cycle (`_connect` and everything below
it) never modifies: only the `connect` wrapper touches them. -/
def Frame (s s' : St) : Prop :=
  s'.isConnecting = s.isConnecting ∧ s'.needsToken = s.needsToken ∧
  s'.sysuiToken = s.sysuiToken ∧ s'.events = s.events

lemma frame_refl (s : St) : Frame s s := ⟨rfl, rfl, rfl, rfl⟩

lemma frame_trans {a b c : St} (h1 : Frame a b) (h2 : Frame b c) : Frame a c :=
  ⟨h2.1.trans h1.1, h2.2.1.trans h1.2.1, h2.2.2.1.trans h1.2.2.1,
   h2.2.2.2.trans h1.2.2.2⟩

lemma catchFalse_frame {s : St} {r : Res Bool × St} (h : Frame s r.2) :
    Frame s (catchFalse r).2 := by
  rcases r with ⟨rb, rs⟩
  cases rb <;> exact h

lemma afterConnectPromise_frame (env : Env) (retry : String → St → Res Bool × St)
    (token : String) (hretry : ∀ t u, Frame u (retry t u).2)
    (r : Res Bool × St) (s : St) (hr : Frame s r.2) :
    Frame s (afterConnectPromise env retry token r).2 := by
  rcases r with ⟨rb, rs⟩
  cases rb with
  | ok connected =>
    unfold afterConnectPromise
    dsimp only
    split
    · exact hr
    · split
      · exact frame_trans hr (hretry _ _)
      · exact hr
  | err e => exact hr
  | spin => exact hr

lemma waitUntilNodeReady_frame (env : Env) :
    ∀ fuel timeleft s, Frame s (waitUntilNodeReady env fuel timeleft s).2 ∧
      (waitUntilNodeReady env fuel timeleft s).2.pushedTokens = s.pushedTokens := by
  intro fuel
  induction fuel with
  | zero =>
    intro timeleft s
    unfold waitUntilNodeReady
    split
    · exact ⟨frame_refl s, rfl⟩
    · split <;> exact ⟨⟨rfl, rfl, rfl, rfl⟩, rfl⟩
  | succ n ih =>
    intro timeleft s
    unfold waitUntilNodeReady
    split
    · exact ⟨frame_refl s, rfl⟩
    · split
      · exact ⟨⟨rfl, rfl, rfl, rfl⟩, rfl⟩
      · exact ⟨⟨rfl, rfl, rfl, rfl⟩, rfl⟩
      · exact ⟨⟨rfl, rfl, rfl, rfl⟩, rfl⟩
      · exact ih _ _

lemma connectWithToken_frame (env : Env) :
    ∀ fuel tok s, Frame s (connectWithToken env fuel tok s).2 := by
  intro fuel
  induction fuel with
  | zero => intro tok s; exact frame_refl s
  | succ n ih =>
    intro tok s
    rw [connectWithToken]
    apply afterConnectPromise_frame env _ _ (fun t u => ih t u)
    apply catchFalse_frame
    dsimp only
    split
    · split
      · rcases h : env.genToken _ with e | g
        · exact ⟨rfl, rfl, rfl, rfl⟩
        · exact frame_trans (⟨rfl, rfl, rfl, rfl⟩ : Frame s _) (ih g _)
      · exact ⟨rfl, rfl, rfl, rfl⟩
    · exact ⟨rfl, rfl, rfl, rfl⟩

lemma _connect_frame (env : Env) :
    ∀ fuel s, Frame s (_connect env fuel s).2 := by
  intro fuel
  induction fuel with
  | zero =>
    intro s
    unfold _connect
    apply catchFalse_frame
    cases h : getNextToken s.tokens <;> exact frame_refl s
  | succ n ih =>
    intro s
    unfold _connect
    apply catchFalse_frame
    cases h : getNextToken s.tokens with
    | none => exact frame_refl s
    | some nextToken =>
      dsimp only
      have hs1 : Frame s ({ s with tokens := markFirstUntried s.tokens } : St) :=
        ⟨rfl, rfl, rfl, rfl⟩
      rcases hc : connectWithToken env n nextToken.value
          { s with tokens := markFirstUntried s.tokens } with ⟨rb, rs⟩
      have hrs : Frame s rs := by
        have := connectWithToken_frame env n nextToken.value
          { s with tokens := markFirstUntried s.tokens }
        rw [hc] at this
        exact frame_trans hs1 this
      cases rb with
      | ok validToken =>
        cases validToken with
        | true =>
          dsimp only
          rcases hw : waitUntilNodeReady env n 30000 rs with ⟨wb, ws⟩
          have hws : Frame s ws := by
            have h2 := (waitUntilNodeReady_frame env n 30000 rs).1
            rw [hw] at h2
            exact frame_trans hrs h2
          cases wb <;> exact hws
        | false => exact frame_trans hrs (ih rs)
      | err e => exact hrs
      | spin => exact hrs

lemma wait_resolves_of_disabled (env : Env)
    (hnc : ∀ n, env.netChain n = NetChainResult.errDisabled)
    (hrand : ∀ n, env.rand n < 500) :
    ∀ fuel timeleft s, timeleft ≤ 250 * fuel →
      (waitUntilNodeReady env fuel timeleft s).1 = Res.ok true ∧
      ∀ w ∈ (waitUntilNodeReady env fuel timeleft s).2.waits,
        w ∈ s.waits ∨ (250 ≤ w ∧ w < 750) := by
  intro fuel
  induction fuel with
  | zero =>
    intro timeleft s hle
    have h0 : timeleft = 0 := by omega
    subst h0
    unfold waitUntilNodeReady
    rw [if_pos rfl]
    exact ⟨rfl, fun w hw => Or.inl hw⟩
  | succ n ih =>
    intro timeleft s hle
    by_cases h0 : timeleft = 0
    · subst h0
      unfold waitUntilNodeReady
      rw [if_pos rfl]
      exact ⟨rfl, fun w hw => Or.inl hw⟩
    · unfold waitUntilNodeReady
      rw [if_neg h0, hnc s.tick]
      dsimp only
      have hrec := ih (timeleft - (250 + env.rand s.tick + env.lag s.tick))
        { s with tick := s.tick + 1, waits := s.waits ++ [250 + env.rand s.tick] }
        (by omega)
      refine ⟨hrec.1, fun w hw => ?_⟩
      rcases hrec.2 w hw with hmem | hrange
      · rcases List.mem_append.mp hmem with hm | hm
        · exact Or.inl hm
        · have hweq : w = 250 + env.rand s.tick := by simpa using hm
          subst hweq
          have := hrand s.tick
          exact Or.inr ⟨by omega, by omega⟩
      · exact Or.inr hrange

lemma uniqStr_subset : ∀ l, ∀ x ∈ uniqStr l, x ∈ l := by
  intro l
  induction l with
  | nil => intro x hx; simp [uniqStr] at hx
  | cons y ys ih =>
    intro x hx
    rw [uniqStr] at hx
    rcases List.mem_cons.mp hx with h | h
    · exact h ▸ List.mem_cons_self _ _
    · exact List.mem_cons_of_mem _ (ih x (List.mem_of_mem_filter h))

lemma uniqStr_nodup : ∀ l, (uniqStr l).Nodup := by
  intro l
  induction l with
  | nil => simp [uniqStr]
  | cons y ys ih =>
    rw [uniqStr]
    refine List.nodup_cons.mpr ⟨fun hmem => ?_, List.Nodup.filter _ ih⟩
    have h2 := List.of_mem_filter hmem
    simp at h2

lemma sanitiseToken_idem (t : String) :
    sanitiseToken (sanitiseToken t) = sanitiseToken t := by
  unfold sanitiseToken
  simp [List.filter_filter]

/-- Relative sanitisation invariant of the `pushedTokens` log: every token
pushed into the transport on the way from state `s` to state `s'` is a
fixpoint of `sanitiseToken` (i.e. already consists of alphanumeric
characters only). -/
def PushSan (s s' : St) : Prop :=
  ∀ t ∈ s'.pushedTokens, t ∈ s.pushedTokens ∨ sanitiseToken t = t

lemma pushSan_refl (s : St) : PushSan s s := fun _ ht => Or.inl ht

lemma pushSan_trans {a b c : St} (h1 : PushSan a b) (h2 : PushSan b c) :
    PushSan a c := by
  intro t ht
  rcases h2 t ht with h | h
  · exact h1 t h
  · exact Or.inr h

lemma pushSan_push (s : St) (x : String) (s' : St)
    (hs' : s'.pushedTokens = s.pushedTokens ++ [sanitiseToken x]) :
    PushSan s s' := by
  intro t ht
  rw [hs'] at ht
  rcases List.mem_append.mp ht with h | h
  · exact Or.inl h
  · have heq : t = sanitiseToken x := by simpa using h
    rw [heq]
    exact Or.inr (sanitiseToken_idem x)

lemma catchFalse_pushSan {s : St} {r : Res Bool × St} (h : PushSan s r.2) :
    PushSan s (catchFalse r).2 := by
  rcases r with ⟨rb, rs⟩
  cases rb <;> exact h

lemma afterConnectPromise_pushSan (env : Env) (retry : String → St → Res Bool × St)
    (token : String) (hretry : ∀ t u, PushSan u (retry t u).2)
    (r : Res Bool × St) (s : St) (hr : PushSan s r.2) :
    PushSan s (afterConnectPromise env retry token r).2 := by
  rcases r with ⟨rb, rs⟩
  cases rb with
  | ok connected =>
    unfold afterConnectPromise
    dsimp only
    split
    · exact hr
    · split
      · exact pushSan_trans hr (hretry _ _)
      · exact hr
  | err e => exact hr
  | spin => exact hr

lemma connectWithToken_pushSan (env : Env) :
    ∀ fuel tok s, PushSan s (connectWithToken env fuel tok s).2 := by
  intro fuel
  induction fuel with
  | zero => intro tok s; exact pushSan_refl s
  | succ n ih =>
    intro tok s
    rw [connectWithToken]
    apply afterConnectPromise_pushSan env _ _ (fun t u => ih t u)
    apply catchFalse_pushSan
    dsimp only
    have hpush : PushSan s
        { s with providerToken := sanitiseToken tok,
                 pushedTokens := s.pushedTokens ++ [sanitiseToken tok] } :=
      pushSan_push s tok _ rfl
    split
    · split
      · rcases h : env.genToken _ with e2 | g
        · exact hpush
        · exact pushSan_trans hpush (ih g _)
      · exact hpush
    · exact hpush

lemma waitUntilNodeReady_pushSan (env : Env) (fuel timeleft : Nat) (s : St) :
    PushSan s (waitUntilNodeReady env fuel timeleft s).2 := by
  intro t ht
  rw [(waitUntilNodeReady_frame env fuel timeleft s).2] at ht
  exact Or.inl ht

lemma _connect_pushSan (env : Env) :
    ∀ fuel s, PushSan s (_connect env fuel s).2 := by
  intro fuel
  induction fuel with
  | zero =>
    intro s
    unfold _connect
    apply catchFalse_pushSan
    cases h : getNextToken s.tokens <;> exact pushSan_refl s
  | succ n ih =>
    intro s
    unfold _connect
    apply catchFalse_pushSan
    cases h : getNextToken s.tokens with
    | none => exact pushSan_refl s
    | some nextToken =>
      dsimp only
      rcases hc : connectWithToken env n nextToken.value
          { s with tokens := markFirstUntried s.tokens } with ⟨rb, rs⟩
      have hrs : PushSan s rs := by
        have hcw := connectWithToken_pushSan env n nextToken.value
          { s with tokens := markFirstUntried s.tokens }
        rw [hc] at hcw
        exact hcw
      cases rb with
      | ok validToken =>
        cases validToken with
        | true =>
          dsimp only
          rcases hw : waitUntilNodeReady env n 30000 rs with ⟨wb, ws⟩
          have hws : PushSan s ws := by
            have h2 := waitUntilNodeReady_pushSan env n 30000 rs
            rw [hw] at h2
            exact pushSan_trans hrs h2
          cases wb <;> exact hws
        | false => exact pushSan_trans hrs (ih rs)
      | err e => exact hrs
      | spin => exact hrs

lemma connect_pushSan (env : Env) (fuel : Nat) (s : St) :
    PushSan s (connect env fuel s).2 := by
  by_cases hc : s.isConnecting = true
  · unfold connect
    rw [if_pos hc]
    exact pushSan_refl s
  · have hc' : s.isConnecting = false := by simpa using hc
    rcases hr : _connect env fuel
        { s with isConnecting := true, events := s.events ++ [Event.connecting],
                 tokens := resetTokens s.tokens } with ⟨rb, rs⟩
    have hp : PushSan s rs := by
      have h2 := _connect_pushSan env fuel
        { s with isConnecting := true, events := s.events ++ [Event.connecting],
                 tokens := resetTokens s.tokens }
      rw [hr] at h2
      exact h2
    cases rb with
    | ok b => cases b <;> simp [connect, hc', hr] <;> exact hp
    | err e => simp [connect, hc', hr]; exact hp
    | spin => simp [connect, hc', hr]; exact hp

/-! ## Concrete environments and states used by the witnesses -/

/-- An endpoint that is up but rejects every token. -/
def envAllFail : Env :=
  { connectOk := fun _ _ => false
    nodeUp := fun _ => true
    genToken := fun _ => Except.ok "gen"
    netChain := fun _ => .ok
    rand := fun _ => 0
    lag := fun _ => 0
    retryTimeout := 1000 }

/-- An endpoint that accepts exactly the token `"bbb"`. -/
def envAB : Env := { envAllFail with connectOk := fun _ tok => tok == "bbb" }

/-- A daemon whose `parity_netChain` call always reports
`NETWORK_DISABLED`. -/
def envDisabled : Env := { envAllFail with netChain := fun _ => .errDisabled }

/-- An endpoint that is down (liveness probe always fails). -/
def envDown : Env := { envAllFail with nodeUp := fun _ => false }

/-- An endpoint that accepts the sentinel and the generated token. -/
def envGen : Env :=
  { envAllFail with connectOk := fun _ tok => tok == "initial" || tok == "gen" }

/-- An endpoint that accepts `"abc"` but whose `parity_netChain` call
rejects with an unexpected error. -/
def envBoom : Env :=
  { envAllFail with connectOk := fun _ tok => tok == "abc"
                    netChain := fun _ => .errOther "boom" }

/-- A manager state with no candidates and empty logs. -/
def emptySt : St :=
  { isConnecting := false, needsToken := false, tokens := [],
    providerToken := "", sysuiToken := none, events := [], pushedTokens := [],
    waits := [], tick := 0 }

/-- A manager state in which a cycle is already running. -/
def busySt : St := { emptySt with isConnecting := true }

/-! ## Claim theorems -/

/-- Claim C1: in every state with `isConnecting = true`, invoking `connect()`
returns immediately with the state unchanged — no candidate-list change, no
`tried`-flag change, no `needsToken` change, no event emitted, and no second
attempt cycle started, so at most one cycle runs at a time. -/
theorem connect_noop_when_connecting (env : Env) (fuel : Nat) (s : St)
    (h : s.isConnecting = true) :
    connect env fuel s = (.ok (), s) := by
  simp [connect, h]

theorem connect_noop_when_connecting_witness :
    connect envAllFail 5 busySt = (Res.ok (), busySt) :=
  connect_noop_when_connecting envAllFail 5 busySt rfl

/-- Claim C2: for a candidate list `[A, B]` where connecting with `A` fails
while the endpoint is reachable and connecting with `B` succeeds, one
`connect()` cycle marks `A` tried, advances to `B`, marks `B` tried,
concludes connected (`connected` event, `needsToken = false`), and writes
`B`'s value to the persistent store under the `'sysuiToken'` key. -/
theorem cycle_failover_persists_valid_token (env : Env) (fuel : Nat)
    (A B pT : String) (sT : Option String) (nT aT bT : Bool)
    (hA : sanitiseToken A = A) (hB : sanitiseToken B = B)
    (hBi : B ≠ "initial")
    (h1 : env.connectOk 0 A = false) (h2 : env.nodeUp 1 = true)
    (h3 : env.connectOk 2 B = true) (h4 : env.netChain 4 = .ok) :
    connect env (fuel + 3)
      { isConnecting := false, needsToken := nT,
        tokens := [{ value := A, tried := aT }, { value := B, tried := bT }],
        providerToken := pT, sysuiToken := sT, events := [], pushedTokens := [],
        waits := [], tick := 0 } =
      (.ok (), { isConnecting := false, needsToken := false,
                 tokens := [{ value := A, tried := true },
                            { value := B, tried := true }],
                 providerToken := B, sysuiToken := some B,
                 events := [Event.connecting, Event.connected],
                 pushedTokens := [A, B], waits := [], tick := 5 }) := by
  simp [connect, _connect, connectWithToken, waitUntilNodeReady, afterConnectPromise,
        catchFalse, getNextToken, markFirstUntried, resetTokens, hA, hB, hBi,
        h1, h2, h3, h4, List.find?]

theorem cycle_failover_persists_valid_token_witness :
    connect envAB 3
      { isConnecting := false, needsToken := false,
        tokens := [{ value := "aaa", tried := false },
                   { value := "bbb", tried := false }],
        providerToken := "", sysuiToken := none, events := [], pushedTokens := [],
        waits := [], tick := 0 } =
      (.ok (), { isConnecting := false, needsToken := false,
                 tokens := [{ value := "aaa", tried := true },
                            { value := "bbb", tried := true }],
                 providerToken := "bbb", sysuiToken := some "bbb",
                 events := [Event.connecting, Event.connected],
                 pushedTokens := ["aaa", "bbb"], waits := [], tick := 5 }) :=
  cycle_failover_persists_valid_token envAB 0 "aaa" "bbb" "" none false false false
    (by decide) (by decide) (by decide) (by decide) (by decide) (by decide) (by decide)

/-- Claim C3: a `connect()` cycle whose candidate list is empty, or whose
attempt run concludes with no candidate succeeding (`_connect` resolving
`false`, which is what happens when every candidate becomes tried without
success), ends disconnected: `needsToken` is set to `true`, `isConnecting`
is cleared, and the events emitted are exactly `connecting` then
`disconnected`. -/
theorem exhausted_candidates_conclude_disconnected (env : Env) (fuel : Nat)
    (s : St) (hNC : s.isConnecting = false)
    (h : s.tokens = [] ∨
      (_connect env fuel
        { s with isConnecting := true, tokens := resetTokens s.tokens,
                 events := s.events ++ [Event.connecting] }).1 = Res.ok false) :
    connect env fuel s =
      (.ok (), { (_connect env fuel
          { s with isConnecting := true, tokens := resetTokens s.tokens,
                   events := s.events ++ [Event.connecting] }).2 with
          isConnecting := false, needsToken := true,
          events := (_connect env fuel
            { s with isConnecting := true, tokens := resetTokens s.tokens,
                     events := s.events ++ [Event.connecting] }).2.events
            ++ [Event.disconnected] }) ∧
    (_connect env fuel
      { s with isConnecting := true, tokens := resetTokens s.tokens,
               events := s.events ++ [Event.connecting] }).2.events =
      s.events ++ [Event.connecting] := by
  have hfalse : (_connect env fuel
      { s with isConnecting := true, tokens := resetTokens s.tokens,
               events := s.events ++ [Event.connecting] }).1 = Res.ok false := by
    rcases h with h | h
    · simp [_connect, getNextToken, resetTokens, h, catchFalse]
    · exact h
  have hframe := _connect_frame env fuel
    { s with isConnecting := true, tokens := resetTokens s.tokens,
             events := s.events ++ [Event.connecting] }
  constructor
  · rcases hr : _connect env fuel
        { s with isConnecting := true, tokens := resetTokens s.tokens,
                 events := s.events ++ [Event.connecting] } with ⟨rb, rs⟩
    rw [hr] at hfalse
    simp only at hfalse
    subst hfalse
    simp [connect, hNC, hr]
  · exact hframe.2.2.2

theorem exhausted_candidates_conclude_disconnected_witness :
    (connect envAllFail 2 emptySt).2.needsToken = true ∧
    (connect envAllFail 2 emptySt).2.events =
      [Event.connecting, Event.disconnected] := by
  have h := exhausted_candidates_conclude_disconnected envAllFail 2 emptySt rfl
    (Or.inl rfl)
  rw [h.1]
  exact ⟨rfl, by decide⟩

/-- Claim C4: `updateToken(t)` prepends a new untried candidate whose value
is `t` with every non-alphanumeric character removed, then invokes the
`connect()` operation; in particular `"ab-12_cd!"` sanitises to
`"ab12cd"`. -/
theorem updateToken_prepends_sanitised_candidate (env : Env) (fuel : Nat)
    (tok : String) (s : St) :
    updateToken env fuel tok s =
      connect env fuel
        { s with tokens :=
            { value := sanitiseToken tok, tried := false } :: s.tokens } ∧
    (sanitiseToken tok).data = tok.data.filter (fun c => c.isAlphanum) ∧
    sanitiseToken "ab-12_cd!" = "ab12cd" :=
  ⟨rfl, rfl, by decide⟩

/-- Claim C5: if the node-status call fails with the `NETWORK_DISABLED`
("still initializing") kind on every attempt, the readiness wait still
terminates: with the default 30000 ms ceiling it resolves successfully
(`true`) after at most 120 retries (each retry consumes at least 250 ms),
and every retry delay is a randomized backoff in the 250–750 ms range. -/
theorem readiness_wait_resolves_within_ceiling (env : Env) (s : St)
    (hnc : ∀ n, env.netChain n = NetChainResult.errDisabled)
    (hrand : ∀ n, env.rand n < 500)
    (hw : s.waits = []) :
    (waitUntilNodeReady env 120 30000 s).1 = Res.ok true ∧
    ∀ w ∈ (waitUntilNodeReady env 120 30000 s).2.waits, 250 ≤ w ∧ w < 750 := by
  have h := wait_resolves_of_disabled env hnc hrand 120 30000 s (by norm_num)
  refine ⟨h.1, fun w hww => ?_⟩
  rcases h.2 w hww with hmem | hrange
  · rw [hw] at hmem
    exact absurd hmem (List.not_mem_nil w)
  · exact hrange

theorem readiness_wait_resolves_within_ceiling_witness :
    (waitUntilNodeReady envDisabled 120 30000 emptySt).1 = Res.ok true :=
  (readiness_wait_resolves_within_ceiling envDisabled emptySt (fun _ => rfl)
    (fun _ => by show (0 : Nat) < 500; decide) rfl).1

/-- Claim C6: when the transport connect fails and the liveness probe
reports the endpoint unreachable, the manager waits the transport-specified
retry interval (`retryTimeout`, logged in `waits`) and retries the very same
candidate token; the candidate list is untouched (no extra `tried` marking,
no advancement to another candidate). -/
theorem unreachable_endpoint_retries_same_candidate (env : Env) (fuel : Nat)
    (tok : String) (s : St)
    (h1 : env.connectOk s.tick (sanitiseToken tok) = false)
    (h2 : env.nodeUp (s.tick + 1) = false) :
    connectWithToken env (fuel + 1) tok s =
      connectWithToken env fuel (sanitiseToken tok)
        { s with providerToken := sanitiseToken tok,
                 pushedTokens := s.pushedTokens ++ [sanitiseToken tok],
                 tick := s.tick + 2,
                 waits := s.waits ++ [env.retryTimeout] } := by
  rw [connectWithToken]
  simp [h1, h2, catchFalse, afterConnectPromise]

theorem unreachable_endpoint_retries_same_candidate_witness :
    connectWithToken envDown 1 "tok1" emptySt =
      connectWithToken envDown 0 (sanitiseToken "tok1")
        { emptySt with providerToken := sanitiseToken "tok1",
                       pushedTokens := emptySt.pushedTokens ++ [sanitiseToken "tok1"],
                       tick := emptySt.tick + 2,
                       waits := emptySt.waits ++ [envDown.retryTimeout] } :=
  unreachable_endpoint_retries_same_candidate envDown 0 "tok1" emptySt rfl rfl

/-- Claim C7: when the transport connect succeeds and the candidate equals
the `"initial"` sentinel, the manager invokes the daemon's
generate-authorization-token operation and repeats the single-candidate
attempt with the freshly generated token in place of the sentinel (first
conjunct: the run continues as the recursive attempt on the generated token
`g`); when the candidate is not the sentinel, the connect success alone
makes the candidate valid (second conjunct: the attempt resolves `true`
immediately). -/
theorem sentinel_triggers_token_generation (env : Env) (fuel : Nat)
    (g tok : String) (s : St) :
    (sanitiseToken tok = "initial" →
      env.connectOk s.tick "initial" = true →
      env.genToken (s.tick + 1) = Except.ok g →
      connectWithToken env (fuel + 1) tok s =
        afterConnectPromise env (fun t u => connectWithToken env fuel t u) "initial"
          (catchFalse (connectWithToken env fuel g
            { s with providerToken := "initial",
                     pushedTokens := s.pushedTokens ++ ["initial"],
                     tick := s.tick + 2 }))) ∧
    (sanitiseToken tok ≠ "initial" →
      env.connectOk s.tick (sanitiseToken tok) = true →
      connectWithToken env (fuel + 1) tok s =
        (.ok true, { s with providerToken := sanitiseToken tok,
                            pushedTokens := s.pushedTokens ++ [sanitiseToken tok],
                            tick := s.tick + 2 })) := by
  constructor
  · intro h1 h2 h3
    rw [connectWithToken]
    simp [h1, h2, h3]
  · intro h1 h2
    rw [connectWithToken]
    simp [h1, h2, catchFalse, afterConnectPromise]

theorem sentinel_triggers_token_generation_witness :
    connectWithToken envGen 2 "initial" emptySt =
      afterConnectPromise envGen (fun t u => connectWithToken envGen 1 t u) "initial"
        (catchFalse (connectWithToken envGen 1 "gen"
          { emptySt with providerToken := "initial",
                         pushedTokens := emptySt.pushedTokens ++ ["initial"],
                         tick := emptySt.tick + 2 })) :=
  (sentinel_triggers_token_generation envGen 1 "gen" "initial" emptySt).1
    (by decide) (by decide) rfl

/-- Claim C8 (as stated, refuted): in the reachable state obtained by
construction with no stored and no external token, the constructor's
`connect()` cycle, and two `updateToken("ab")` calls against an endpoint
that rejects every token, the candidate list holds two entries with the
equal value `"ab"` — so the list is not deduplicated in every reachable
state. -/
theorem candidate_values_can_duplicate :
    ¬ (((updateToken envAllFail 10 "ab"
        (updateToken envAllFail 10 "ab"
          (connect envAllFail 10 (initialState none none)).2).2).2.tokens.map
        CandidateToken.value).Nodup) := by decide

/-- Claim C8 (amended): the candidate list is deduplicated by value at
construction (the constructor's seeding never produces two candidates with
equal value), and the reset step run at the start of every connection cycle
leaves every candidate's `tried` flag false; externally supplied
`updateToken` candidates may duplicate existing values. -/
theorem dedup_at_construction_reset_at_cycle_start :
    (∀ su nt, ((initialTokens su nt).map CandidateToken.value).Nodup) ∧
    (∀ ts, ∀ t ∈ resetTokens ts, t.tried = false) := by
  constructor
  · intro su nt
    unfold initialTokens
    rw [List.map_map]
    have hco : (CandidateToken.value ∘ fun value =>
        ({ value := value, tried := false } : CandidateToken)) = id := rfl
    rw [hco, List.map_id]
    exact List.Nodup.filter _ (uniqStr_nodup _)
  · intro ts t ht
    rcases List.mem_map.mp ht with ⟨u, hu, rfl⟩
    rfl

theorem dedup_at_construction_reset_at_cycle_start_witness :
    ((initialTokens (some "tokA") none).map CandidateToken.value).Nodup ∧
    ({ value := "tokA", tried := false } : CandidateToken).tried = false :=
  ⟨dedup_at_construction_reset_at_cycle_start.1 (some "tokA") none,
   dedup_at_construction_reset_at_cycle_start.2
     [{ value := "tokA", tried := true }]
     { value := "tokA", tried := false } (by decide)⟩

/-- Claim C9: errors during a `connect()` cycle are contained. First
conjunct: `connect()` never resolves to a rejected promise, for any
environment, fuel and state. Second conjunct: whenever a cycle started from
a non-connecting state resolves, `isConnecting` is cleared and the cycle
emitted exactly `connecting` followed by either `connected` or
`disconnected`. Third conjunct: in a run where the single candidate is
accepted but the readiness wait raises an error of a non-recovered kind
(`errOther e`), the cycle catches it, clears `isConnecting`, sets
`needsToken`, and emits `disconnected` — leaving the manager usable. -/
theorem cycle_errors_never_propagate (env : Env) (fuel : Nat)
    (A pT : String) (sT : Option String) (nT aT : Bool) (e : String)
    (hA : sanitiseToken A = A) (hAi : A ≠ "initial")
    (h1 : env.connectOk 0 A = true)
    (h2 : env.netChain 2 = NetChainResult.errOther e) :
    (∀ (env' : Env) (fuel' : Nat) (s' : St) (e' : String),
        (connect env' fuel' s').1 ≠ Res.err e') ∧
    (∀ (env' : Env) (fuel' : Nat) (s' : St),
        s'.isConnecting = false →
        (connect env' fuel' s').1 = Res.ok () →
        (connect env' fuel' s').2.isConnecting = false ∧
        ((connect env' fuel' s').2.events
            = s'.events ++ [Event.connecting, Event.connected] ∨
         (connect env' fuel' s').2.events
            = s'.events ++ [Event.connecting, Event.disconnected])) ∧
    connect env (fuel + 2)
      { isConnecting := false, needsToken := nT,
        tokens := [{ value := A, tried := aT }],
        providerToken := pT, sysuiToken := sT, events := [], pushedTokens := [],
        waits := [], tick := 0 } =
      (.ok (), { isConnecting := false, needsToken := true,
                 tokens := [{ value := A, tried := true }],
                 providerToken := A, sysuiToken := sT,
                 events := [Event.connecting, Event.disconnected],
                 pushedTokens := [A], waits := [], tick := 3 }) := by
  refine ⟨?_, ?_, ?_⟩
  · intro env' fuel' s' e'
    by_cases hc : s'.isConnecting = true
    · simp [connect, hc]
    · have hc' : s'.isConnecting = false := by simpa using hc
      rcases hr : _connect env' fuel'
          { s' with isConnecting := true, tokens := resetTokens s'.tokens,
                    events := s'.events ++ [Event.connecting] } with ⟨rb, rs⟩
      cases rb with
      | ok b => cases b <;> simp [connect, hc', hr]
      | err e2 => simp [connect, hc', hr]
      | spin => simp [connect, hc', hr]
  · intro env' fuel' s' hNC hok
    rcases hr : _connect env' fuel'
        { s' with isConnecting := true, tokens := resetTokens s'.tokens,
                  events := s'.events ++ [Event.connecting] } with ⟨rb, rs⟩
    have hfr := _connect_frame env' fuel'
      { s' with isConnecting := true, tokens := resetTokens s'.tokens,
                events := s'.events ++ [Event.connecting] }
    rw [hr] at hfr
    have hev : rs.events = s'.events ++ [Event.connecting] := hfr.2.2.2
    cases rb with
    | ok b =>
      cases b with
      | true =>
        refine ⟨by simp [connect, hNC, hr], Or.inl ?_⟩
        simp [connect, hNC, hr, hev]
      | false =>
        refine ⟨by simp [connect, hNC, hr], Or.inr ?_⟩
        simp [connect, hNC, hr, hev]
    | err e2 =>
      refine ⟨by simp [connect, hNC, hr], Or.inr ?_⟩
      simp [connect, hNC, hr, hev]
    | spin =>
      simp [connect, hNC, hr] at hok
  · simp [connect, _connect, connectWithToken, waitUntilNodeReady,
          afterConnectPromise, catchFalse, getNextToken, markFirstUntried,
          resetTokens, List.find?, hA, hAi, h1, h2]

theorem cycle_errors_never_propagate_witness :
    (connect envBoom 2
      { isConnecting := false, needsToken := false,
        tokens := [{ value := "abc", tried := false }],
        providerToken := "", sysuiToken := none, events := [], pushedTokens := [],
        waits := [], tick := 0 }).2.events =
      [Event.connecting, Event.disconnected] ∧
    (connect envBoom 2
      { isConnecting := false, needsToken := false,
        tokens := [{ value := "abc", tried := false }],
        providerToken := "", sysuiToken := none, events := [], pushedTokens := [],
        waits := [], tick := 0 }).1 ≠ Res.err "boom" := by
  have h := cycle_errors_never_propagate envBoom 0 "abc" "" none false false "boom"
    (by decide) (by decide) (by decide) (by decide)
  constructor
  · rw [h.2.2]
  · exact h.1 envBoom 2 _ "boom"

/-- Claim C10: every token value pushed into the transport
(`provider.updateToken`, logged in `pushedTokens`) during a `connect()` or
`updateToken()` run is sanitized to alphanumeric characters only (a
fixpoint of `sanitiseToken`), whatever its origin — persisted store,
constructor argument, sentinel, or daemon-generated token. -/
theorem transport_tokens_always_sanitised (env : Env) (fuel : Nat)
    (tok : String) (s : St) (t : String) :
    (t ∈ (connect env fuel s).2.pushedTokens →
      t ∈ s.pushedTokens ∨ sanitiseToken t = t) ∧
    (t ∈ (updateToken env fuel tok s).2.pushedTokens →
      t ∈ s.pushedTokens ∨ sanitiseToken t = t) := by
  constructor
  · intro ht
    exact connect_pushSan env fuel s t ht
  · intro ht
    exact connect_pushSan env fuel
      { s with tokens := { value := sanitiseToken tok, tried := false } :: s.tokens }
      t ht

theorem transport_tokens_always_sanitised_witness :
    "initial" ∈ (initialState none none).pushedTokens ∨
      sanitiseToken "initial" = "initial" :=
  (transport_tokens_always_sanitised envAllFail 10 "x" (initialState none none)
    "initial").1 (by decide)

end SecureApi
